import Mathlib

/-!
Verification of the SmartPlate food-donation workflow.

This file gives a shallow embedding of the business logic of the
plate-for-good repository: the food-request lifecycle (creation, admin
approval/rejection, donor acceptance, deletion), the NGO/volunteer
verification workflow, the sign-up sequence, the urgency/distance ranking
of list views, and the geo-distance utilities.

Each definition is translated from a concrete place in the source:
  - enums from src/integrations/supabase/types.ts (Constants) and
    src/components/food-requests/types.ts;
  - the food_requests schema and row-level-security policies from
    supabase/migrations (part_007, 20260129..., 20260202...);
  - handleAcceptRequest / handleDelete / handleReject / handleApprove from
    the DonorFoodRequestList, FoodRequestList, AdminFoodRequestReview,
    AdminDashboard and AdminVolunteerVerification components;
  - signUp from the auth provider (useAuth);
  - calculateDistance / formatDistance from src/lib/distance.ts;
  - the list-view comparators from DonorFoodRequestList and
    VolunteerFoodRequestList.

Database writes issued through the backend are modelled together with the
row-level-security policies that constrain them: a conditional UPDATE is a
map over rows applying the change exactly to the rows that satisfy both
the client-side filters and the USING clause of the applicable policy; a
zero-row match is not an error (the backend reports success), while a row
reached through the conflict target of an upsert whose UPDATE policy
fails is an error.  JavaScript numbers are modelled as rationals (for the
exact arithmetic of comparators and Math.round) or as reals (for the
trigonometric haversine formula).

The file is organised as definitions first, theorems second.
-/

namespace PlateForGood

/-! ## Enumerations (supabase enums and food-request types) -/

/-- Urgency levels of a food request, from the urgency_level check
constraint and the UrgencyLevel union type. -/
inductive UrgencyLevel
  | low
  | normal
  | high
  | critical
deriving DecidableEq, Repr

/-- Status values of a food request, from the food_request_status enum. -/
inductive FoodRequestStatus
  | pending
  | approved
  | matched
  | in_progress
  | completed
  | cancelled
deriving DecidableEq, Repr

/-- Verification status of NGO/volunteer details, from the
verification_status enum. -/
inductive VerificationStatus
  | pending
  | approved
  | rejected
deriving DecidableEq, Repr

/-- Application roles, from the app_role enum. -/
inductive AppRole
  | admin
  | ngo
  | donor
  | volunteer
deriving DecidableEq, Repr

/-- Role assignment: the user_roles table keyed by user id (at most one
role per user in normal flow). -/
def RoleMap := String → Option AppRole

/-! ## Geo-distance utilities (src/lib/distance.ts)

calculateDistance and its helpers operate on JavaScript floating-point
numbers; they are modelled over the real numbers, on which the claimed
symmetry and zero properties are exact. -/

/-- Degree-to-radian conversion, from toRad in distance.ts:
deg * (Math.PI / 180). -/
noncomputable def toRad (deg : ℝ) : ℝ := deg * (Real.pi / 180)

/-- Intermediate haversine quantity a from calculateDistance:
sin(dLat/2)^2 + cos(lat1) * cos(lat2) * sin(dLng/2)^2 with
dLat = toRad(lat2 - lat1) and dLng = toRad(lng2 - lng1). -/
noncomputable def haversineA (lat1 lng1 lat2 lng2 : ℝ) : ℝ :=
  Real.sin (toRad (lat2 - lat1) / 2) * Real.sin (toRad (lat2 - lat1) / 2) +
    Real.cos (toRad lat1) * Real.cos (toRad lat2) *
      Real.sin (toRad (lng2 - lng1) / 2) * Real.sin (toRad (lng2 - lng1) / 2)

/-- Mathematical model of Math.atan2(y, x) (quadrant-aware arctangent). -/
noncomputable def atan2 (y x : ℝ) : ℝ :=
  if 0 < x then Real.arctan (y / x)
  else if x < 0 then
    (if 0 ≤ y then Real.arctan (y / x) + Real.pi else Real.arctan (y / x) - Real.pi)
  else
    (if 0 < y then Real.pi / 2 else if y < 0 then -(Real.pi / 2) else 0)

/-- Haversine great-circle distance from calculateDistance in distance.ts:
R * c with R = 6371 and c = 2 * atan2(sqrt a, sqrt (1 - a)). -/
noncomputable def calculateDistance (lat1 lng1 lat2 lng2 : ℝ) : ℝ :=
  6371 *
    (2 *
      atan2 (Real.sqrt (haversineA lat1 lng1 lat2 lng2))
        (Real.sqrt (1 - haversineA lat1 lng1 lat2 lng2)))

/-- JavaScript Math.round: round half toward positive infinity,
equal to the floor of x + 1/2. -/
def jsRound (x : ℚ) : ℤ := ⌊x + 1 / 2⌋

/-- Rendering of km.toFixed(1) for the nonnegative kilometre values the
app displays: the nearest multiple of 0.1 (larger value on ties), printed
with one decimal digit. -/
def toFixed1 (km : ℚ) : String :=
  toString (jsRound (km * 10) / 10) ++ "." ++ toString (jsRound (km * 10) % 10)

/-- formatDistance from distance.ts: metres (rounded) below 1 km, else
kilometres with one decimal place. -/
def formatDistance (km : ℚ) : String :=
  if km < 1 then toString (jsRound (km * 1000)) ++ " m"
  else toFixed1 km ++ " km"

/-! ## Food requests: rows and mutations

A food_requests row carries the columns relevant to the lifecycle claims
(part_007 schema plus the donor_id and volunteer_id columns added by the
later migrations).  Writes are modelled as conditional updates over a list
of rows: the change is applied exactly to the rows satisfying both the
client-side filters of the query and the USING clause of the applicable
row-level-security policy; unmatched rows are untouched and a zero-row
match is reported as success by the backend. -/

/-- Columns of a food_requests row used by the lifecycle claims. -/
structure FoodRequest where
  id : String
  ngo_id : String
  user_id : String
  status : FoodRequestStatus
  urgency_level : UrgencyLevel
  donor_id : Option String
  volunteer_id : Option String
deriving DecidableEq, Repr

/-- Effect of the donor acceptance update from handleAcceptRequest in
DonorFoodRequestList on one row: the payload sets status to matched and
donor_id to the acting user; the client filter keeps rows with
status = approved, and the policy Donors can accept approved requests
additionally requires the actor to have the donor role (its USING clause
is has_role(uid, donor) AND status = approved; its WITH CHECK clause,
donor_id = uid AND status = matched, is always satisfied by the payload).
No condition on the current donor_id is checked anywhere. -/
def acceptRequestRow (roles : RoleMap) (uid : String) (r : FoodRequest) : FoodRequest :=
  if roles uid = some .donor ∧ r.status = .approved then
    { r with status := .matched, donor_id := some uid }
  else r

/-- Donor acceptance over the table: the update from handleAcceptRequest
filters on id = requestId and applies acceptRequestRow to matching rows. -/
def acceptRequestUpdate (roles : RoleMap) (uid requestId : String)
    (db : List FoodRequest) : List FoodRequest :=
  db.map fun r => if r.id = requestId then acceptRequestRow roles uid r else r

/-- Observable outcome of handleAcceptRequest: the new table state, the
toast shown to the donor, and whether the list was re-fetched.  The
backend reports no error for a conditional update matching zero rows, so
the success branch (success toast, then fetchRequests()) runs whether or
not any row was changed. -/
structure AcceptOutcome where
  db : List FoodRequest
  toastTitle : String
  toastDescription : String
  refetched : Bool
deriving DecidableEq, Repr

/-- handleAcceptRequest from DonorFoodRequestList: perform the conditional
update, show the success toast, re-fetch the list. -/
def handleAcceptRequest (roles : RoleMap) (uid requestId : String)
    (db : List FoodRequest) : AcceptOutcome :=
  { db := acceptRequestUpdate roles uid requestId db
    toastTitle := "Request Accepted"
    toastDescription :=
      "You have been matched with this food request. The NGO will be notified."
    refetched := true }

/-- handleDelete from FoodRequestList combined with the policy NGOs can
delete their own pending requests: the client filters on id = requestId,
and the USING clause keeps the deletion to rows with user_id = uid and
status = pending; rows failing either condition survive. -/
def handleDelete (uid requestId : String) (db : List FoodRequest) : List FoodRequest :=
  db.filter fun r => !decide (r.id = requestId ∧ r.user_id = uid ∧ r.status = .pending)

/-- handleReject from AdminFoodRequestReview combined with the policy
Admins can update all requests: the update payload is only
status = cancelled; the rejectionReason collected by the dialog is not
part of the payload, and the food_requests schema has no column that
could store it. -/
def handleReject (roles : RoleMap) (actor requestId : String)
    (rejectionReason : String) (db : List FoodRequest) : List FoodRequest :=
  db.map fun r =>
    if roles actor = some .admin ∧ r.id = requestId then { r with status := .cancelled }
    else r

/-! ## Concrete fixtures used by counterexamples and witnesses -/

/-- Role assignment used in concrete scenarios: two donors, one admin, one
NGO user. -/
def rolesFixture : RoleMap := fun s =>
  if s = "donor-1" ∨ s = "donor-2" then some .donor
  else if s = "admin-1" then some .admin
  else if s = "ngo-user-1" then some .ngo
  else none

/-- An approved request that already carries a donor id. -/
def approvedTakenRequest : FoodRequest :=
  { id := "r1", ngo_id := "n1", user_id := "ngo-user-1", status := .approved
    urgency_level := .normal, donor_id := some "donor-1", volunteer_id := none }

/-- A request already matched to a donor (a lost acceptance race). -/
def matchedRequest : FoodRequest :=
  { id := "r1", ngo_id := "n1", user_id := "ngo-user-1", status := .matched
    urgency_level := .normal, donor_id := some "donor-1", volunteer_id := none }

/-- A pending request as created by an NGO. -/
def pendingRequest : FoodRequest :=
  { id := "r1", ngo_id := "n1", user_id := "ngo-user-1", status := .pending
    urgency_level := .critical, donor_id := none, volunteer_id := none }

/-! ## NGO/volunteer details: verification workflow

ngo_details and volunteer_details share the verification columns
(verification_status, rejection_reason, verified_at, verified_by) and the
same policy shape: owners may insert their own row and update it only
while its verification_status is pending (the UPDATE policies Volunteers
can update their own pending details and NGOs can update their own details
carry USING auth.uid() = user_id AND verification_status = pending and no
separate WITH CHECK); admins may update any row.  The writes the program
issues against these tables are:
  - handleSubmitDetails (NGOVerification / VolunteerVerification): an
    upsert of the owner-entered detail fields whose payload always carries
    verification_status = pending;
  - handleApprove (AdminDashboard / AdminVolunteerVerification): sets
    verification_status = approved, verified_at = now, verified_by = the
    acting admin;
  - handleReject (same screens): sets verification_status = rejected,
    rejection_reason = the entered reason or the default
    Documents could not be verified when it is empty, verified_at = now,
    verified_by = the acting admin. -/

/-- Verification columns of an ngo_details / volunteer_details row; the
owner-entered detail fields (name, address, ...) are abstracted into a
single details field. -/
structure DetailsRow where
  user_id : String
  details : String
  verification_status : VerificationStatus
  rejection_reason : Option String
  verified_at : Option Nat
  verified_by : Option String
deriving DecidableEq, Repr

/-- Policy violation reported by the backend when an update hits a row
whose UPDATE policy is not satisfied. -/
inductive DbError
  | rlsViolation
deriving DecidableEq, Repr

/-- Writes the program issues against a details row. -/
inductive DetailsOp
  | ownerSave (actor : String) (details : String)
  | adminApprove (actor : String) (now : Nat)
  | adminReject (actor : String) (now : Nat) (reason : String)
deriving DecidableEq, Repr

/-- Acting user of a details write. -/
def DetailsOp.actor : DetailsOp → String
  | .ownerSave a _ => a
  | .adminApprove a _ => a
  | .adminReject a _ _ => a

/-- Application of a details write to an existing row under the row-level
policies.  ownerSave reaches the row through the upsert conflict on the
unique user_id, so its update is governed by the owner UPDATE policy:
USING auth.uid() = user_id AND verification_status = pending (a row that
is not pending makes the update a policy violation); its payload always
carries verification_status = pending.  The admin writes are governed by
the Admins can update all details policies: USING has_role(actor, admin). -/
def applyDetailsOp (roles : RoleMap) (op : DetailsOp) (row : DetailsRow) :
    Except DbError DetailsRow :=
  match op with
  | .ownerSave actor d =>
      if actor = row.user_id ∧ row.verification_status = .pending then
        .ok { row with details := d, verification_status := .pending }
      else .error .rlsViolation
  | .adminApprove actor now =>
      if roles actor = some .admin then
        .ok { row with verification_status := .approved, verified_at := some now
                       verified_by := some actor }
      else .error .rlsViolation
  | .adminReject actor now reason =>
      if roles actor = some .admin then
        .ok { row with verification_status := .rejected
                       rejection_reason :=
                         some (if reason = "" then "Documents could not be verified"
                               else reason)
                       verified_at := some now, verified_by := some actor }
      else .error .rlsViolation

/-- A volunteer row that an admin has rejected. -/
def rejectedVolunteerRow : DetailsRow :=
  { user_id := "vol-1", details := "old details", verification_status := .rejected
    rejection_reason := some "Documents could not be verified"
    verified_at := some 10, verified_by := some "admin-1" }

/-- A details row still pending review. -/
def pendingDetailsRow : DetailsRow :=
  { user_id := "vol-1", details := "old details", verification_status := .pending
    rejection_reason := none, verified_at := none, verified_by := none }

/-- Row produced by the fixture admin rejecting the pending volunteer
with an empty reason. -/
def rejectionDecisionRow : DetailsRow :=
  { pendingDetailsRow with
    verification_status := .rejected,
    rejection_reason := some "Documents could not be verified",
    verified_at := some 42, verified_by := some "admin-1" }

/-! ## The sign-up sequence (signUp in the auth provider) -/

/-- Environment for one run of signUp: whether each backend step (identity
creation, profile insert, role insert) fails. -/
structure SignUpEnv where
  authFails : Bool
  profileFails : Bool
  roleFails : Bool
deriving DecidableEq, Repr

/-- Step whose error a signUp run returns. -/
inductive SignUpStep
  | auth
  | profile
  | role
deriving DecidableEq, Repr

/-- Observable outcome of signUp: which writes were persisted (none are
ever rolled back) and the error returned to the caller, none meaning the
success result error: null. -/
structure SignUpOutcome where
  identityCreated : Bool
  profileInserted : Bool
  roleInserted : Bool
  error : Option SignUpStep
deriving DecidableEq, Repr

/-- signUp from the auth provider: create the identity (returning its
error on failure), then insert the profile row -- a profile error is only
logged (console.error) and does not stop the sequence or reach the
returned result -- then insert the role row, returning its error on
failure; nothing is rolled back on any failure. -/
def signUp (env : SignUpEnv) : SignUpOutcome :=
  if env.authFails then
    { identityCreated := false, profileInserted := false, roleInserted := false
      error := some .auth }
  else if env.roleFails then
    { identityCreated := true, profileInserted := !env.profileFails
      roleInserted := false, error := some .role }
  else
    { identityCreated := true, profileInserted := !env.profileFails
      roleInserted := true, error := none }

/-! ## Ranking of list views (DonorFoodRequestList, VolunteerFoodRequestList)

Both list views enrich each fetched request with an optional distance from
the viewer (absent when the viewer location or the request coordinates are
unknown) and sort with a comparator whose primary key is the urgency
priority from urgencyConfig and whose secondary key is the distance, the
distance comparison firing only when both requests carry one.  JavaScript
Array.prototype.sort is stable; it is modelled by a stable insertion sort
that places an element before the first element it compares
less-or-equal to. -/

/-- A request as ranked by the list views: urgency plus the optional
computed distance. -/
structure RankedRequest where
  id : String
  urgency_level : UrgencyLevel
  distance : Option ℚ
deriving DecidableEq, Repr

/-- Priority numbers from urgencyConfig (JavaScript numbers): critical 0,
high 1, normal 2, low 3. -/
def urgencyPriority : UrgencyLevel → ℚ
  | .critical => 0
  | .high => 1
  | .normal => 2
  | .low => 3

/-- Comparator of DonorFoodRequestList: urgency priority difference if
nonzero, else the distance difference when both distances are defined,
else 0. -/
def donorCompare (a b : RankedRequest) : ℚ :=
  let urgencyDiff : ℚ :=
    urgencyPriority a.urgency_level - urgencyPriority b.urgency_level
  if urgencyDiff ≠ 0 then urgencyDiff
  else
    match a.distance, b.distance with
    | some da, some db => da - db
    | _, _ => 0

/-- Comparator of VolunteerFoodRequestList: urgency priority difference if
nonzero, else the distance difference when both distances are non-null,
else 0. -/
def volunteerCompare (a b : RankedRequest) : ℚ :=
  let urgencyDiff : ℚ :=
    urgencyPriority a.urgency_level - urgencyPriority b.urgency_level
  if urgencyDiff ≠ 0 then urgencyDiff
  else
    match a.distance, b.distance with
    | some da, some db => da - db
    | _, _ => 0

/-- Stable insertion of an element: it is placed before the first element
it compares less-or-equal to, staying behind earlier-inserted elements
that compare equal. -/
def sortInsert (le : α → α → Bool) (x : α) : List α → List α
  | [] => [x]
  | y :: l => if le x y then x :: y :: l else y :: sortInsert le x l

/-- Stable sort by insertion, modelling the stable
Array.prototype.sort. -/
def stableSort (le : α → α → Bool) : List α → List α
  | [] => []
  | x :: l => sortInsert le x (stableSort le l)

/-- The sort performed by DonorFoodRequestList on the enriched requests:
comparator result at most zero means the first argument stays first. -/
def donorSortRequests (l : List RankedRequest) : List RankedRequest :=
  stableSort (fun a b => decide (donorCompare a b ≤ 0)) l

/-- The sort performed by VolunteerFoodRequestList. -/
def volunteerSortRequests (l : List RankedRequest) : List RankedRequest :=
  stableSort (fun a b => decide (volunteerCompare a b ≤ 0)) l

/-- Intended ranking order: strictly more urgent first, and at equal
urgency at most the distance of the later request (distances read with
default 0, used under the hypothesis that both are present). -/
def urgencyDistLex (a b : RankedRequest) : Prop :=
  urgencyPriority a.urgency_level < urgencyPriority b.urgency_level ∨
    (urgencyPriority a.urgency_level = urgencyPriority b.urgency_level ∧
      a.distance.getD 0 ≤ b.distance.getD 0)

/-- A critical request without distance information. -/
def criticalNoDistance : RankedRequest :=
  { id := "a", urgency_level := .critical, distance := none }

/-- A critical request five kilometres away. -/
def criticalNearDistance : RankedRequest :=
  { id := "b", urgency_level := .critical, distance := some 5 }

/-- The ranking scenario list from the specification: a low-urgency
request one kilometre away and a critical request a hundred kilometres
away. -/
def scenarioLowNear : RankedRequest :=
  { id := "low", urgency_level := .low, distance := some 1 }

/-- The critical, far request of the ranking scenario. -/
def scenarioCriticalFar : RankedRequest :=
  { id := "critical", urgency_level := .critical, distance := some 100 }

/-! ## Theorems about the geo-distance utilities -/

/-- Swapping the two coordinate pairs negates the half-angle arguments and
commutes the cosine product, leaving the haversine quantity unchanged. -/
theorem haversineA_symm (lat1 lng1 lat2 lng2 : ℝ) :
    haversineA lat1 lng1 lat2 lng2 = haversineA lat2 lng2 lat1 lng1 := by
  unfold haversineA
  have h1 : toRad (lat1 - lat2) / 2 = -(toRad (lat2 - lat1) / 2) := by
    unfold toRad; ring
  have h2 : toRad (lng1 - lng2) / 2 = -(toRad (lng2 - lng1) / 2) := by
    unfold toRad; ring
  rw [h1, h2, Real.sin_neg, Real.sin_neg]
  ring

/-- At identical coordinates both half-angles vanish, so the haversine
quantity is zero. -/
theorem haversineA_self (lat lng : ℝ) : haversineA lat lng lat lng = 0 := by
  unfold haversineA toRad
  simp

/-- C9: calculateDistance is symmetric in its two coordinate pairs (exact
equality over the real-number semantics, hence within any relative
tolerance), and the distance from a point to itself is zero. -/
theorem calculateDistance_symm_and_self_eq_zero :
    (∀ lat1 lng1 lat2 lng2 : ℝ,
        calculateDistance lat1 lng1 lat2 lng2 = calculateDistance lat2 lng2 lat1 lng1) ∧
      ∀ lat lng : ℝ, calculateDistance lat lng lat lng = 0 := by
  constructor
  · intro lat1 lng1 lat2 lng2
    unfold calculateDistance
    rw [haversineA_symm]
  · intro lat lng
    unfold calculateDistance
    rw [haversineA_self]
    simp [atan2]

/-- C10: below one kilometre, formatDistance renders the rounded metre
count followed by the unit m; on the interval from 0.9995 (inclusive) to 1
(exclusive) the rounded count is 1000, so the rendering is the string
1000 m and not the kilometre rendering. -/
theorem formatDistance_sub_kilometre :
    (∀ km : ℚ, 0 ≤ km → km < 1 →
        formatDistance km = toString (jsRound (km * 1000)) ++ " m") ∧
      ∀ km : ℚ, (9995 : ℚ) / 10000 ≤ km → km < 1 → formatDistance km = "1000 m" := by
  constructor
  · intro km _ hlt
    simp [formatDistance, hlt]
  · intro km hge hlt
    have hround : jsRound (km * 1000) = 1000 := by
      unfold jsRound
      rw [Int.floor_eq_iff]
      constructor
      · push_cast
        linarith
      · push_cast
        linarith
    simp [formatDistance, hlt, hround]
    rfl

/-- Witness for C10: the metre rendering at 0.5 km and the value 0.9996 km
inside the critical interval. -/
theorem formatDistance_sub_kilometre_witness :
    formatDistance (1 / 2) = toString (jsRound ((1 : ℚ) / 2 * 1000)) ++ " m" ∧
      formatDistance (9996 / 10000) = "1000 m" :=
  ⟨formatDistance_sub_kilometre.1 (1 / 2) (by norm_num) (by norm_num),
    formatDistance_sub_kilometre.2 (9996 / 10000) (by norm_num) (by norm_num)⟩

/-! ## C1: donor acceptance compare-and-swap -/

/-- Counterexample to C1 as stated: the acceptance update is conditioned
on status = approved only, not on donor_id being null.  On an approved row
whose donor_id is already set, the update by a second donor is applied
(and overwrites the stored donor id) rather than being a no-op. -/
theorem acceptRequest_applies_without_donor_null_check :
    approvedTakenRequest.donor_id = some "donor-1" ∧
      acceptRequestRow rolesFixture "donor-2" approvedTakenRequest ≠ approvedTakenRequest ∧
      (acceptRequestRow rolesFixture "donor-2" approvedTakenRequest).donor_id =
        some "donor-2" := by
  decide

/-- C1 amended: the acceptance update is applied exactly when the current
status is approved (the null-ness of donor_id is not checked); because the
winning update moves the status to matched, serializing two acceptance
attempts with different donor ids on an approved request with no donor
still persists exactly one donor id, and the second attempt is a no-op. -/
theorem acceptRequest_race_single_winner (roles : RoleMap) (d1 d2 : String)
    (r : FoodRequest) (h1 : roles d1 = some .donor) (_h2 : roles d2 = some .donor)
    (hs : r.status = .approved) (_hd : r.donor_id = none) :
    (acceptRequestRow roles d1 r).donor_id = some d1 ∧
      (acceptRequestRow roles d1 r).status = .matched ∧
      acceptRequestRow roles d2 (acceptRequestRow roles d1 r) =
        acceptRequestRow roles d1 r := by
  unfold acceptRequestRow
  simp [h1, hs]

/-- Witness for C1: the race on a fresh approved request between the two
fixture donors. -/
theorem acceptRequest_race_single_winner_witness :
    (acceptRequestRow rolesFixture "donor-1"
          { approvedTakenRequest with donor_id := none }).donor_id = some "donor-1" ∧
      (acceptRequestRow rolesFixture "donor-1"
          { approvedTakenRequest with donor_id := none }).status = .matched ∧
      acceptRequestRow rolesFixture "donor-2"
          (acceptRequestRow rolesFixture "donor-1"
            { approvedTakenRequest with donor_id := none }) =
        acceptRequestRow rolesFixture "donor-1"
          { approvedTakenRequest with donor_id := none } :=
  acceptRequest_race_single_winner rolesFixture "donor-1" "donor-2"
    { approvedTakenRequest with donor_id := none } (by decide) (by decide) (by decide)
    (by decide)

/-! ## C2: outcome reported on a lost acceptance race -/

/-- Counterexample to C2 as stated: on a request that is no longer
approved, the conditional update matches zero rows, the backend reports no
error, and handleAcceptRequest shows the success toast Request Accepted --
not a no-longer-available message (no such message exists in the code). -/
theorem lost_race_reports_success_toast :
    matchedRequest.status ≠ .approved ∧
      handleAcceptRequest rolesFixture "donor-2" "r1" [matchedRequest] =
        { db := [matchedRequest]
          toastTitle := "Request Accepted"
          toastDescription :=
            "You have been matched with this food request. The NGO will be notified."
          refetched := true } := by
  decide

/-- C2 amended: when every row matching the request id is no longer in
status approved (a lost race), the update is a no-op, yet the donor is
shown the success toast Request Accepted, and the list is re-fetched
afterward. -/
theorem handleAcceptRequest_lost_race (roles : RoleMap) (uid requestId : String)
    (db : List FoodRequest) (h : ∀ r ∈ db, r.id = requestId → r.status ≠ .approved) :
    handleAcceptRequest roles uid requestId db =
      { db := db
        toastTitle := "Request Accepted"
        toastDescription :=
          "You have been matched with this food request. The NGO will be notified."
        refetched := true } := by
  unfold handleAcceptRequest acceptRequestUpdate
  have hmap : (db.map fun r =>
      if r.id = requestId then acceptRequestRow roles uid r else r) = db := by
    induction db with
    | nil => rfl
    | cons a l ih =>
      have ha : (if a.id = requestId then acceptRequestRow roles uid a else a) = a := by
        by_cases hid : a.id = requestId
        · have : a.status ≠ .approved := h a (by simp) hid
          simp [hid, acceptRequestRow, this]
        · simp [hid]
      simpa [ha] using ih fun r hr hrid => h r (by simp [hr]) hrid
  rw [hmap]

/-- Witness for C2: the lost race against the fixture request already
matched to donor-1. -/
theorem handleAcceptRequest_lost_race_witness :
    handleAcceptRequest rolesFixture "donor-2" "r1" [matchedRequest] =
      { db := [matchedRequest]
        toastTitle := "Request Accepted"
        toastDescription :=
          "You have been matched with this food request. The NGO will be notified."
        refetched := true } :=
  handleAcceptRequest_lost_race rolesFixture "donor-2" "r1" [matchedRequest] (by decide)

/-! ## C3: rejection reason on admin rejection of a food request -/

/-- C3: handleReject discards the rejection reason.  The result of the
rejection is independent of the reason the admin entered, and the
resulting row records only the status change to cancelled: the
food_requests schema has no column for a rejection reason (the embedded
FoodRequest row faithfully has no such field), so nothing is recorded. -/
theorem handleReject_discards_reason :
    (∀ (roles : RoleMap) (actor requestId reason1 reason2 : String)
        (db : List FoodRequest),
        handleReject roles actor requestId reason1 db =
          handleReject roles actor requestId reason2 db) ∧
      handleReject rolesFixture "admin-1" "r1" "Food is spoiled" [pendingRequest] =
        [{ pendingRequest with status := .cancelled }] := by
  exact ⟨fun _ _ _ _ _ _ => rfl, by decide⟩

/-! ## C8: deletion only while pending -/

/-- C8: a food request whose status has left pending is never removed by
the delete operation (the only delete the program issues against
food_requests), for any acting user and any targeted id; conversely the
owning NGO user can delete their own request while it is pending. -/
theorem handleDelete_only_pending
    (uid requestId : String) (db : List FoodRequest) (r : FoodRequest) (hr : r ∈ db) :
    (r.status ≠ .pending → r ∈ handleDelete uid requestId db) ∧
      (r.id = requestId → r.user_id = uid → r.status = .pending →
        r ∉ handleDelete uid requestId db) := by
  constructor
  · intro hs
    simp only [handleDelete, List.mem_filter]
    exact ⟨hr, by simp [hs]⟩
  · intro hid huid hs hmem
    rw [handleDelete, List.mem_filter] at hmem
    simp [hid, huid, hs] at hmem

/-- Witness for C8: a matched request survives a deletion attempt by its
owner, and the owner deletes their own pending request. -/
theorem handleDelete_only_pending_witness :
    matchedRequest ∈ handleDelete "ngo-user-1" "r1" [matchedRequest] ∧
      pendingRequest ∉ handleDelete "ngo-user-1" "r1" [pendingRequest] :=
  ⟨(handleDelete_only_pending "ngo-user-1" "r1" [matchedRequest] matchedRequest
        (by decide)).1 (by decide),
    (handleDelete_only_pending "ngo-user-1" "r1" [pendingRequest] pendingRequest
        (by decide)).2 (by decide) (by decide) (by decide)⟩

/-! ## C5: resubmission after rejection -/

/-- C5: evaluation at the failing input.  A rejected owner saving their
details again is blocked: the owner UPDATE policy requires the current
verification_status to be pending, so the save of the program (whose
payload would set the status back to pending) is refused on a rejected
row, while the same save on a pending row succeeds and keeps the row
pending. -/
theorem ownerSave_blocked_on_rejected_row :
    rejectedVolunteerRow.verification_status = .rejected ∧
      applyDetailsOp rolesFixture (.ownerSave "vol-1" "new details")
          rejectedVolunteerRow = .error .rlsViolation ∧
      applyDetailsOp rolesFixture (.ownerSave "vol-1" "new details")
          pendingDetailsRow =
        .ok { pendingDetailsRow with details := "new details" } :=
  ⟨rfl, rfl, rfl⟩

/-! ## C6: admin-exclusive verification decisions with stamps -/

/-- C6: whenever a details write yields a row whose verification status is
approved or rejected, that write is one of the admin decision operations
performed by a user holding the admin role, and the same update stamps
verified_by with the acting admin and verified_at with a timestamp; a
rejection additionally records a rejection reason, the default message
Documents could not be verified when the entered reason is empty. -/
theorem verification_decisions_admin_exclusive_and_stamped
    (roles : RoleMap) (op : DetailsOp) (row row' : DetailsRow)
    (h : applyDetailsOp roles op row = .ok row')
    (hs : row'.verification_status = .approved ∨
      row'.verification_status = .rejected) :
    roles op.actor = some .admin ∧
      row'.verified_by = some op.actor ∧
      row'.verified_at.isSome ∧
      ((∃ a now, op = .adminApprove a now) ∨
        ∃ a now reason, op = .adminReject a now reason) ∧
      (∀ a now reason, op = .adminReject a now reason →
        row'.rejection_reason =
          some (if reason = "" then "Documents could not be verified" else reason)) := by
  cases op with
  | ownerSave a d =>
    rw [applyDetailsOp] at h
    by_cases hc : a = row.user_id ∧ row.verification_status = .pending
    · rw [if_pos hc] at h
      cases h
      simp at hs
    · rw [if_neg hc] at h
      cases h
  | adminApprove a now =>
    rw [applyDetailsOp] at h
    by_cases hc : roles a = some .admin
    · rw [if_pos hc] at h
      cases h
      refine ⟨hc, rfl, rfl, Or.inl ⟨a, now, rfl⟩, ?_⟩
      intro _ _ _ hop
      cases hop
    · rw [if_neg hc] at h
      cases h
  | adminReject a now reason =>
    rw [applyDetailsOp] at h
    by_cases hc : roles a = some .admin
    · rw [if_pos hc] at h
      cases h
      refine ⟨hc, rfl, rfl, Or.inr ⟨a, now, reason, rfl⟩, ?_⟩
      intro a' now' reason' hop
      cases hop
      rfl
    · rw [if_neg hc] at h
      cases h

/-- Witness for C6: the fixture admin rejects a pending volunteer with an
empty reason; the decision is stamped and carries the default message. -/
theorem verification_decisions_witness :
    rolesFixture (DetailsOp.adminReject "admin-1" 42 "").actor = some .admin ∧
      rejectionDecisionRow.verified_by = some (DetailsOp.adminReject "admin-1" 42 "").actor ∧
      rejectionDecisionRow.verified_at.isSome ∧
      ((∃ a now, DetailsOp.adminReject "admin-1" 42 "" = DetailsOp.adminApprove a now) ∨
        ∃ a now reason,
          DetailsOp.adminReject "admin-1" 42 "" = DetailsOp.adminReject a now reason) ∧
      (∀ a now reason,
        DetailsOp.adminReject "admin-1" 42 "" = DetailsOp.adminReject a now reason →
        rejectionDecisionRow.rejection_reason =
          some (if reason = "" then "Documents could not be verified" else reason)) :=
  verification_decisions_admin_exclusive_and_stamped rolesFixture
    (.adminReject "admin-1" 42 "") pendingDetailsRow rejectionDecisionRow
    (by exact rfl) (by exact Or.inr rfl)

/-! ## C7: the sign-up sequence -/

/-- Counterexample to C7 as stated: a profile-creation failure after a
successful identity creation is swallowed; with role assignment
succeeding, signUp returns the success outcome error = none, not an error
result for the failed step. -/
theorem signUp_profile_failure_not_surfaced :
    signUp { authFails := false, profileFails := true, roleFails := false } =
      { identityCreated := true, profileInserted := false, roleInserted := true
        error := none } := by
  decide

/-- C7 amended: signUp runs identity creation, profile insertion and role
assignment in sequence with no rollback; an identity-creation failure and
a role-assignment failure are surfaced as error results for the failing
step (the role failure leaving the earlier identity and profile writes in
place), but a profile-insertion failure alone is only logged, and the
caller receives the success outcome. -/
theorem signUp_error_surfacing (env : SignUpEnv) :
    (env.authFails = true →
        signUp env =
          { identityCreated := false, profileInserted := false, roleInserted := false
            error := some .auth }) ∧
      (env.authFails = false → env.roleFails = true →
        signUp env =
          { identityCreated := true, profileInserted := !env.profileFails
            roleInserted := false, error := some .role }) ∧
      (env.authFails = false → env.roleFails = false →
        signUp env =
          { identityCreated := true, profileInserted := !env.profileFails
            roleInserted := true, error := none }) :=
  ⟨fun ha => by simp [signUp, ha], fun ha hr => by simp [signUp, ha, hr],
    fun ha hr => by simp [signUp, ha, hr]⟩

/-- Witness for C7: a run where only the role insert fails returns the
role error while the identity and profile writes remain. -/
theorem signUp_error_surfacing_witness :
    signUp { authFails := false, profileFails := false, roleFails := true } =
      { identityCreated := true, profileInserted := true, roleInserted := false
        error := some .role } :=
  (signUp_error_surfacing
      { authFails := false, profileFails := false, roleFails := true }).2.1 rfl rfl

/-! ## Lemmas about the stable sort used by the list views -/

/-- Membership in a stable insertion. -/
theorem mem_sortInsert {α : Type _} (le : α → α → Bool) (x y : α) (l : List α) :
    y ∈ sortInsert le x l ↔ y = x ∨ y ∈ l := by
  induction l with
  | nil => simp [sortInsert]
  | cons z l ih =>
    rw [show sortInsert le x (z :: l) =
        if le x z then x :: z :: l else z :: sortInsert le x l from rfl]
    by_cases h : le x z = true
    · rw [if_pos h]
      simp
    · rw [if_neg h]
      simp only [List.mem_cons, ih]
      tauto

/-- Membership in the stable sort. -/
theorem mem_stableSort {α : Type _} (le : α → α → Bool) (y : α) (l : List α) :
    y ∈ stableSort le l ↔ y ∈ l := by
  induction l with
  | nil => simp [stableSort]
  | cons x l ih => simp [stableSort, mem_sortInsert, ih]

/-- Stable insertion preserves sortedness of a list whose elements all
satisfy an invariant on which the comparison is total and transitive. -/
theorem pairwise_sortInsert {α : Type _} {le : α → α → Bool} {P : α → Prop}
    (htot : ∀ a b, P a → P b → le a b = true ∨ le b a = true)
    (htrans : ∀ a b c, P a → P b → P c → le a b = true → le b c = true → le a c = true)
    (x : α) (l : List α) (hx : P x) (hl : ∀ y ∈ l, P y)
    (hs : l.Pairwise fun a b => le a b = true) :
    (sortInsert le x l).Pairwise fun a b => le a b = true := by
  induction l with
  | nil => simp [sortInsert]
  | cons y l ih =>
    have hy : P y := hl y (List.mem_cons_self y l)
    have hl' : ∀ z ∈ l, P z := fun z hz => hl z (List.mem_cons_of_mem y hz)
    rw [List.pairwise_cons] at hs
    obtain ⟨hyl, hls⟩ := hs
    rw [show sortInsert le x (y :: l) =
        if le x y then x :: y :: l else y :: sortInsert le x l from rfl]
    by_cases h : le x y = true
    · rw [if_pos h]
      rw [List.pairwise_cons]
      refine ⟨?_, ?_⟩
      · intro z hz
        rcases List.mem_cons.mp hz with rfl | hz'
        · exact h
        · exact htrans x y z hx hy (hl' z hz') h (hyl z hz')
      · rw [List.pairwise_cons]
        exact ⟨hyl, hls⟩
    · have hyx : le y x = true := by
        rcases htot x y hx hy with hxy | hyx
        · exact absurd hxy h
        · exact hyx
      rw [if_neg h]
      rw [List.pairwise_cons]
      refine ⟨?_, ih hl' hls⟩
      intro z hz
      rcases (mem_sortInsert le x z l).mp hz with rfl | hz'
      · exact hyx
      · exact hyl z hz'

/-- The stable sort of a list whose elements all satisfy an invariant on
which the comparison is total and transitive is sorted. -/
theorem pairwise_stableSort {α : Type _} {le : α → α → Bool} {P : α → Prop}
    (htot : ∀ a b, P a → P b → le a b = true ∨ le b a = true)
    (htrans : ∀ a b c, P a → P b → P c → le a b = true → le b c = true → le a c = true)
    (l : List α) (hl : ∀ y ∈ l, P y) :
    (stableSort le l).Pairwise fun a b => le a b = true := by
  induction l with
  | nil => simp [stableSort]
  | cons x l ih =>
    have hx : P x := hl x (List.mem_cons_self x l)
    have hl' : ∀ z ∈ l, P z := fun z hz => hl z (List.mem_cons_of_mem x hz)
    rw [stableSort]
    exact pairwise_sortInsert htot htrans x (stableSort le l) hx
      (fun y hy => hl' y ((mem_stableSort le y l).mp hy)) (ih hl')

/-! ## Lemmas about the list-view comparator -/

/-- Closed form of the donor comparator. -/
theorem donorCompare_def (a b : RankedRequest) :
    donorCompare a b =
      if urgencyPriority a.urgency_level - urgencyPriority b.urgency_level ≠ 0
      then urgencyPriority a.urgency_level - urgencyPriority b.urgency_level
      else
        match a.distance, b.distance with
        | some da, some db => da - db
        | _, _ => 0 := rfl

/-- The two list-view comparators have the same value. -/
theorem volunteerCompare_eq_donorCompare :
    volunteerCompare = donorCompare := rfl

/-- On requests that both carry a distance, a nonpositive comparator value
is exactly the lexicographic urgency-then-distance order. -/
theorem donorCompare_le_iff {a b : RankedRequest} (ha : a.distance.isSome = true)
    (hb : b.distance.isSome = true) :
    donorCompare a b ≤ 0 ↔ urgencyDistLex a b := by
  obtain ⟨da, hda⟩ := Option.isSome_iff_exists.mp ha
  obtain ⟨db, hdb⟩ := Option.isSome_iff_exists.mp hb
  rw [donorCompare_def, urgencyDistLex, hda, hdb]
  simp only [Option.getD_some]
  by_cases hp : urgencyPriority a.urgency_level - urgencyPriority b.urgency_level ≠ 0
  · rw [if_pos hp]
    have hne : urgencyPriority a.urgency_level ≠ urgencyPriority b.urgency_level := by
      intro h
      apply hp
      rw [h]
      ring
    constructor
    · intro hle
      left
      exact lt_of_le_of_ne (by linarith) hne
    · rintro (hlt | ⟨heq, _⟩)
      · linarith
      · exact absurd heq hne
  · rw [if_neg hp]
    push_neg at hp
    have heq : urgencyPriority a.urgency_level = urgencyPriority b.urgency_level := by
      linarith
    constructor
    · intro hle
      right
      exact ⟨heq, by linarith⟩
    · rintro (hlt | ⟨_, hle⟩)
      · linarith
      · linarith

/-- The donor comparator is total: one of the two orientations is
nonpositive. -/
theorem donorCompare_total (a b : RankedRequest) :
    donorCompare a b ≤ 0 ∨ donorCompare b a ≤ 0 := by
  rw [donorCompare_def, donorCompare_def]
  by_cases hp : urgencyPriority a.urgency_level - urgencyPriority b.urgency_level ≠ 0
  · have hp' : urgencyPriority b.urgency_level - urgencyPriority a.urgency_level ≠ 0 := by
      intro h
      exact hp (by linarith)
    rw [if_pos hp, if_pos hp']
    rcases le_total (urgencyPriority a.urgency_level)
        (urgencyPriority b.urgency_level) with h | h
    · left; linarith
    · right; linarith
  · push_neg at hp
    have hp' : ¬(urgencyPriority b.urgency_level -
        urgencyPriority a.urgency_level ≠ 0) := by
      push_neg
      linarith
    rw [if_neg (by push_neg; linarith), if_neg hp']
    rcases hA : a.distance with _ | da <;> rcases hB : b.distance with _ | db <;> simp
    rcases le_total da db with h | h
    · left; linarith
    · right; linarith

/-- The donor comparator is transitive on requests that carry a
distance. -/
theorem donorCompare_trans {a b c : RankedRequest} (ha : a.distance.isSome = true)
    (hb : b.distance.isSome = true) (hc : c.distance.isSome = true)
    (hab : donorCompare a b ≤ 0) (hbc : donorCompare b c ≤ 0) :
    donorCompare a c ≤ 0 := by
  rw [donorCompare_le_iff ha hb] at hab
  rw [donorCompare_le_iff hb hc] at hbc
  rw [donorCompare_le_iff ha hc]
  rcases hab with h1 | ⟨e1, d1⟩
  · rcases hbc with h2 | ⟨e2, _⟩
    · exact Or.inl (h1.trans h2)
    · exact Or.inl (e2 ▸ h1)
  · rcases hbc with h2 | ⟨e2, d2⟩
    · exact Or.inl (e1 ▸ h2)
    · exact Or.inr ⟨e1.trans e2, d1.trans d2⟩

/-! ## C4: ranking of the donor and volunteer list views -/

/-- Counterexample to C4 as stated: under equal urgency the comparators
return 0 whenever either request lacks distance information, so the stable
sort keeps a distance-less request in front of a request with a known
distance instead of placing it after. -/
theorem missing_distance_not_placed_after :
    criticalNoDistance.urgency_level = criticalNearDistance.urgency_level ∧
      criticalNoDistance.distance = none ∧
      criticalNearDistance.distance.isSome = true ∧
      donorSortRequests [criticalNoDistance, criticalNearDistance] =
        [criticalNoDistance, criticalNearDistance] ∧
      volunteerSortRequests [criticalNoDistance, criticalNearDistance] =
        [criticalNoDistance, criticalNearDistance] := by
  refine ⟨rfl, rfl, rfl, ?_, ?_⟩ <;>
    norm_num [donorSortRequests, volunteerSortRequests, stableSort, sortInsert,
      donorCompare, volunteerCompare, urgencyPriority, criticalNoDistance,
      criticalNearDistance]

/-- C4 amended: in both list views the output is ordered primarily by
urgency priority ascending (critical before high before normal before
low) and secondarily by distance ascending whenever every listed request
carries a distance; a request lacking distance information compares equal
to any request of the same urgency, so the stable sort leaves it in its
original relative position.  The specification scenario sorts the critical
request before the nearer low-urgency one. -/
theorem list_views_sorted_by_urgency_then_distance :
    (∀ l : List RankedRequest, (∀ r ∈ l, r.distance.isSome = true) →
        (donorSortRequests l).Pairwise urgencyDistLex) ∧
      (∀ l : List RankedRequest, (∀ r ∈ l, r.distance.isSome = true) →
        (volunteerSortRequests l).Pairwise urgencyDistLex) ∧
      donorSortRequests [scenarioLowNear, scenarioCriticalFar] =
        [scenarioCriticalFar, scenarioLowNear] ∧
      volunteerSortRequests [scenarioLowNear, scenarioCriticalFar] =
        [scenarioCriticalFar, scenarioLowNear] := by
  have hdonor : ∀ l : List RankedRequest, (∀ r ∈ l, r.distance.isSome = true) →
      (donorSortRequests l).Pairwise urgencyDistLex := by
    intro l hl
    have htot : ∀ a b : RankedRequest, a.distance.isSome = true →
        b.distance.isSome = true →
        decide (donorCompare a b ≤ 0) = true ∨ decide (donorCompare b a ≤ 0) = true := by
      intro a b _ _
      rcases donorCompare_total a b with h | h
      · exact Or.inl (decide_eq_true h)
      · exact Or.inr (decide_eq_true h)
    have htrans : ∀ a b c : RankedRequest, a.distance.isSome = true →
        b.distance.isSome = true → c.distance.isSome = true →
        decide (donorCompare a b ≤ 0) = true → decide (donorCompare b c ≤ 0) = true →
        decide (donorCompare a c ≤ 0) = true := by
      intro a b c ha hb hc hab hbc
      exact decide_eq_true
        (donorCompare_trans ha hb hc (of_decide_eq_true hab) (of_decide_eq_true hbc))
    have hpw := pairwise_stableSort htot htrans l hl
    refine hpw.imp_of_mem ?_
    intro a b hamem hbmem hab
    have ha : a.distance.isSome = true :=
      hl a ((mem_stableSort _ a l).mp hamem)
    have hb : b.distance.isSome = true :=
      hl b ((mem_stableSort _ b l).mp hbmem)
    exact (donorCompare_le_iff ha hb).mp (of_decide_eq_true hab)
  refine ⟨hdonor, ?_,
    by
      norm_num [donorSortRequests, stableSort, sortInsert, donorCompare,
        urgencyPriority, scenarioLowNear, scenarioCriticalFar],
    by
      norm_num [volunteerSortRequests, stableSort, sortInsert, volunteerCompare,
        urgencyPriority, scenarioLowNear, scenarioCriticalFar]⟩
  intro l hl
  have hveq : volunteerSortRequests l = donorSortRequests l := rfl
  rw [hveq]
  exact hdonor l hl

/-- Witness for C4: the specification scenario list, whose requests all
carry distances, is sorted by urgency then distance. -/
theorem list_views_sorted_witness :
    (donorSortRequests [scenarioLowNear, scenarioCriticalFar]).Pairwise urgencyDistLex :=
  list_views_sorted_by_urgency_then_distance.1 [scenarioLowNear, scenarioCriticalFar]
    (by decide)

end PlateForGood
